import Mathlib

/-!
Verification development for the zipline pipeline engine.

The repository's visible source is dominated by the test suites
`src/zipline/_tests/pipeline/test_factor.py` and
`src/zipline/_tests/pipeline/test_pipeline_algo.py`; the production core
(the `zipline.pipeline` term graph, the masked statistical kernels in
`zipline.lib`, and the execution scheduler in `zipline.algorithm`) is not
part of the visible tree.  Following the spec (`spec.md`), the missing
operations are modelled here from the spec's component contracts
(sections 4.3 - 4.7), and every model is anchored against the concrete
expected values that the visible tests hard-code.

Conventions of the shallow embedding:
* a data row is a `List (Option ℚ)`; `none` models a missing cell
  (NaN / NaT / sentinel, depending on dtype);
* a mask row is a `List Bool` (`true` = "valid and included");
* a classifier (groupby) row is a `List (Option L)` for an arbitrary
  decidable label type `L`; `none` models a missing classifier label;
* all kernels are row-wise, matching spec section 4.3 ("Ranking is
  row-wise (cross-sectional, one rank set per row)") and 4.4.
-/

namespace ZiplineSpec

/-! ## Masked, grouped row-wise kernels (spec sections 4.3 - 4.6) -/

/-- The numeric value stored at column `j` of a row (`0` as a dummy for
missing cells; the kernels only read it through positions whose cell is
present). -/
def cellVal (vals : List (Option ℚ)) (j : Nat) : ℚ :=
  (vals.getD j none).getD 0

/-- Modelled from the spec: a cell takes part in a grouped computation iff
its effective mask is true, its value is present, and its classifier label
is present (spec section 3, "Mask", and section 4.3: cells where the
classifier value is missing or masked are excluded from all groups). -/
def inclB {L : Type} [DecidableEq L] (vals : List (Option ℚ)) (mask : List Bool)
    (labs : List (Option L)) (i : Nat) : Bool :=
  mask.getD i false && (vals.getD i none).isSome && (labs.getD i none).isSome

/-- The (ordered) column indices of the cells of group `g` that take part in
the computation of a row. -/
def includedIdx {L : Type} [DecidableEq L] (vals : List (Option ℚ)) (mask : List Bool)
    (labs : List (Option L)) (g : Option L) : List Nat :=
  (List.range vals.length).filter (fun j =>
    mask.getD j false && (vals.getD j none).isSome && decide (labs.getD j none = g))

/-- Position of the first occurrence of `i` in a list of column indices. -/
def idxOfN (i : Nat) : List Nat → Nat
  | [] => 0
  | j :: t => if j = i then 0 else idxOfN i t + 1

/-- Modelled from the spec: the grouped row-wise application combinator
(the shape shared by `naive_grouped_rowwise_apply` in `zipline.lib.normalize`
and the masked kernels of spec sections 4.3 - 4.5, none of which are in the
visible source).  For every included cell, the values of its group are
gathered in column order, `f` is applied to the gathered vector, and the
result is scattered back to the group's columns; every excluded cell
surfaces as `missingOut`. -/
def groupedRowApply {α L : Type} [DecidableEq L] (f : List ℚ → List α) (missingOut : α)
    (vals : List (Option ℚ)) (mask : List Bool) (labs : List (Option L)) : List α :=
  (List.range vals.length).map (fun i =>
    if inclB vals mask labs i then
      (f ((includedIdx vals mask labs (labs.getD i none)).map (cellVal vals))).getD
        (idxOfN i (includedIdx vals mask labs (labs.getD i none))) missingOut
    else missingOut)

/-- The gathered group of an included cell: the values of all cells sharing
cell `i`'s classifier label (in column order) that pass the mask. -/
def groupValues {L : Type} [DecidableEq L] (vals : List (Option ℚ)) (mask : List Bool)
    (labs : List (Option L)) (i : Nat) : List ℚ :=
  (includedIdx vals mask labs (labs.getD i none)).map (cellVal vals)

/-- Labels for an ungrouped computation: every cell in the (single) group. -/
def unitLabs (n : Nat) : List (Option Unit) :=
  List.replicate n (some ())

/-- Mean of a gathered group (`nanmean` on the non-missing cells). -/
def listMean (xs : List ℚ) : ℚ :=
  xs.sum / (xs.length : ℚ)

/-- Modelled from the spec: `demean` subtracts the row-(group-)mean ignoring
missing values (spec section 4.4). -/
def demeanRow {L : Type} [DecidableEq L] (vals : List (Option ℚ)) (mask : List Bool)
    (labs : List (Option L)) : List (Option ℚ) :=
  groupedRowApply (fun xs => xs.map (fun x => some (x - listMean xs))) none vals mask labs

/-- Modelled from the spec: `zscore` demeans then divides by the population
standard deviation of the row/group (spec section 4.4).  The standard
deviation involves a square root, which has no exact rational realisation,
so the embedding is parametrised by the reduction `std` used for it; the
code calls one fixed such function (`nanstd`) from both `zscore` and the
`stddev` summary, which is what the algebraic claims relate. -/
def zscoreRow {L : Type} [DecidableEq L] (std : List ℚ → ℚ) (vals : List (Option ℚ))
    (mask : List Bool) (labs : List (Option L)) : List (Option ℚ) :=
  groupedRowApply (fun xs => xs.map (fun x => some ((x - listMean xs) / std xs))) none
    vals mask labs

/-- Ascending sort of a gathered group. -/
def sortedAsc (xs : List ℚ) : List ℚ :=
  List.insertionSort (· ≤ ·) xs

/-- Lower winsorization bound: the empirical `lo`-percentile of the group,
reconstructed from the expected values of `test_winsorize_no_nans` and
`test_winsorize_hand_computed` (sorted value at index `⌊lo·n⌋`). -/
def winsorLower (lo : ℚ) (xs : List ℚ) : ℚ :=
  (sortedAsc xs).getD (Rat.floor (lo * (xs.length : ℚ))).toNat 0

/-- Upper winsorization bound: the empirical `hi`-percentile of the group
(sorted value at index `⌈hi·n⌉ - 1`), as exercised by
`test_winsorize_no_nans` and `test_winsorize_hand_computed`. -/
def winsorUpper (hi : ℚ) (xs : List ℚ) : ℚ :=
  (sortedAsc xs).getD (Rat.ceil (hi * (xs.length : ℚ)) - 1).toNat 0

/-- Clip a value into the closed interval `[lb, ub]`. -/
def clipQ (lb ub x : ℚ) : ℚ :=
  max lb (min ub x)

/-- Winsorize a gathered group: clip every value to the group's empirical
percentile range (spec section 4.4). -/
def winsorizeList (lo hi : ℚ) (xs : List ℚ) : List ℚ :=
  xs.map (clipQ (winsorLower lo xs) (winsorUpper hi xs))

/-- Modelled from the spec: `winsorize(lo, hi)` as a grouped row transform
(spec section 4.4); NaNs are excluded from the percentile computation
entirely and surface as missing. -/
def winsorizeRow {L : Type} [DecidableEq L] (lo hi : ℚ) (vals : List (Option ℚ))
    (mask : List Bool) (labs : List (Option L)) : List (Option ℚ) :=
  groupedRowApply (fun xs => (winsorizeList lo hi xs).map some) none vals mask labs

/-- The tie-break methods of the ranking kernel (spec section 4.3). -/
inductive RankMethod where
  | ordinal
  | average
  | minRank
  | maxRank
  | dense
deriving DecidableEq

/-- Value comparison used by the ranking kernel; `ascending = false`
reverses the value ordering before ranking (spec section 4.3). -/
def cmpLtB (ascending : Bool) (a b : ℚ) : Bool :=
  if ascending then decide (a < b) else decide (b < a)

/-- Ordinal ranks: stable order of first occurrence (spec section 4.3). -/
def ordinalRanks (ascending : Bool) (xs : List ℚ) : List ℚ :=
  (List.range xs.length).map (fun k =>
    1 + ((xs.filter (fun y => cmpLtB ascending y (xs.getD k 0))).length : ℚ)
      + (((xs.take k).filter (fun y => decide (y = xs.getD k 0))).length : ℚ))

/-- Minimum rank among ties (spec section 4.3). -/
def minRanks (ascending : Bool) (xs : List ℚ) : List ℚ :=
  xs.map (fun x => 1 + ((xs.filter (fun y => cmpLtB ascending y x)).length : ℚ))

/-- Maximum rank among ties (spec section 4.3). -/
def maxRanks (ascending : Bool) (xs : List ℚ) : List ℚ :=
  xs.map (fun x => ((xs.filter (fun y => cmpLtB ascending y x || decide (y = x))).length : ℚ))

/-- Average rank: mean of the ordinal ranks tied values would occupy. -/
def averageRanks (ascending : Bool) (xs : List ℚ) : List ℚ :=
  List.zipWith (fun a b => (a + b) / 2) (minRanks ascending xs) (maxRanks ascending xs)

/-- Dense rank: count of distinct values at or before this one in the
ranking order (spec section 4.3). -/
def denseRanks (ascending : Bool) (xs : List ℚ) : List ℚ :=
  xs.map (fun x =>
    (((xs.filter (fun y => cmpLtB ascending y x || decide (y = x))).dedup).length : ℚ))

/-- Dispatch on the tie-break method. -/
def ranksFor (m : RankMethod) (ascending : Bool) (xs : List ℚ) : List ℚ :=
  match m with
  | .ordinal => ordinalRanks ascending xs
  | .average => averageRanks ascending xs
  | .minRank => minRanks ascending xs
  | .maxRank => maxRanks ascending xs
  | .dense => denseRanks ascending xs

/-- Modelled from the spec: the masked, optionally grouped ranking kernel
(`masked_rankdata_2d` of `zipline.lib.rank` and the `Rank` term, neither in
the visible source), spec section 4.3.  Output is float-typed; masked-out or
missing cells rank as missing. -/
def rankRow {L : Type} [DecidableEq L] (m : RankMethod) (ascending : Bool)
    (vals : List (Option ℚ)) (mask : List Bool) (labs : List (Option L)) :
    List (Option ℚ) :=
  groupedRowApply (fun xs => (ranksFor m ascending xs).map some) none vals mask labs

/-- Modelled from the spec: `rank`'s Python signature has default arguments
`method='ordinal', ascending=True` ("Not passing a method should default to
ordinal", `test_rank_ascending`); a call site that omits an argument passes
`none` here. -/
def rankCall {L : Type} [DecidableEq L] (m : Option RankMethod) (ascending : Option Bool)
    (vals : List (Option ℚ)) (mask : List Bool) (labs : List (Option L)) :
    List (Option ℚ) :=
  rankRow (m.getD RankMethod.ordinal) (ascending.getD true) vals mask labs

/-- Bucket number of a value of rank `rk` (number of strictly smaller group
values) among `n` values split into `bins` quantile buckets; reconstructed
from the expected values of `test_quantiles_unmasked`,
`test_quantiles_masked` and `test_quantiles_uneven_buckets` (right-closed
buckets over rank positions `rk/(n-1)` against edges `i/bins`). -/
def bucketOf (bins n rk : Nat) : ℤ :=
  (((List.range bins).filter (fun i => 0 < i && i * (n - 1) < rk * bins)).length : ℤ)

/-- Quantile-bucket each value of a gathered group. -/
def quantileList (bins : Nat) (xs : List ℚ) : List ℤ :=
  xs.map (fun x => bucketOf bins xs.length ((xs.filter (fun y => decide (y < x))).length))

/-- Modelled from the spec: `quantiles(bins, mask)` assigns each row's
non-missing, unmasked values to ordinal buckets `0 .. bins-1` by ascending
value; masked/missing cells output the sentinel `-1` (spec section 4.5). -/
def quantilesRow (bins : Nat) (vals : List (Option ℚ)) (mask : List Bool) : List ℤ :=
  groupedRowApply (quantileList bins) (-1) vals mask (unitLabs vals.length)

/-! ## Term construction: dtype gating and window safety
(spec sections 3, 4.1, 4.4; `test_cant_normalize_non_float`,
`test_rank_ascending`, `TestWindowSafety`) -/

/-- The dtype categories a Term can carry (spec section 3). -/
inductive Dtype where
  | float64
  | datetime64ns
  | int64
  | boolType
  | categorical
deriving DecidableEq

/-- The attributes of an input Factor that the term constructors consult. -/
structure FactorSpec where
  dtype : Dtype
  windowSafe : Bool
deriving DecidableEq

/-- Graph-build errors (spec section 7: construction-time, fail fast). -/
inductive GraphError where
  | typeError
  | unknownRankMethod
  | badPercentileBounds
deriving DecidableEq

/-- The attributes of a successfully constructed derived term. -/
structure BuiltTerm where
  input : FactorSpec
  windowSafe : Bool
deriving DecidableEq

/-- Modelled from the spec: `demean` is only definable on float64 Factors;
on any other dtype construction fails with a type error before any numeric
work (spec section 3 invariant; `test_cant_normalize_non_float`).  The
result propagates the input's `window_safe` flag
(`test_demean_is_window_safe_if_input_is_window_safe`). -/
def mkDemean (f : FactorSpec) : Except GraphError BuiltTerm :=
  if f.dtype = Dtype.float64 then Except.ok ⟨f, f.windowSafe⟩
  else Except.error GraphError.typeError

/-- Modelled from the spec: `zscore` is float64-only
(`test_cant_normalize_non_float`); its output is always window-safe, the
z-scored values being invariant under the adjustments a later window could
apply (`test_zscore_is_window_safe` asserts `F().zscore().window_safe` for a
plain, non-window-safe `F`). -/
def mkZscore (f : FactorSpec) : Except GraphError BuiltTerm :=
  if f.dtype = Dtype.float64 then Except.ok ⟨f, true⟩
  else Except.error GraphError.typeError

/-- Modelled from the spec: `winsorize` is float64-only and additionally
requires `0 ≤ min_percentile < max_percentile ≤ 1`, else it fails with a
bounds error at construction (spec section 4.4;
`test_winsorize_bad_bounds`).  It propagates the input's `window_safe`
flag (`test_winsorize_is_window_safe_if_input_is_window_safe`). -/
def mkWinsorize (f : FactorSpec) (lo hi : ℚ) : Except GraphError BuiltTerm :=
  if f.dtype = Dtype.float64 then
    if 0 ≤ lo ∧ lo < hi ∧ hi ≤ 1 then Except.ok ⟨f, f.windowSafe⟩
    else Except.error GraphError.badPercentileBounds
  else Except.error GraphError.typeError

/-- Modelled from the spec: `quantiles` is a float-only operation (spec
section 3 invariant), failing with a type error at graph-build time on any
other dtype. -/
def mkQuantiles (f : FactorSpec) (bins : Nat) : Except GraphError BuiltTerm :=
  if f.dtype = Dtype.float64 then Except.ok ⟨f, false⟩
  else Except.error GraphError.typeError

/-- The rank method names the Rank term accepts (spec section 4.3). -/
def validRankMethods : List String :=
  ["ordinal", "average", "min", "max", "dense"]

/-- Modelled from the spec: `rank` fails at construction with an "unknown
rank method" error for an unrecognised method name (spec section 4.3;
`test_bad_input`).  It carries no float64 restriction: the visible tests
`test_rank_ascending` / `test_rank_descending` / `test_grouped_rank_*`
construct and evaluate ranks of datetime64ns Factors end-to-end, and rank
output is float64 for integer/datetime input. -/
def mkRank (f : FactorSpec) (method : String) : Except GraphError BuiltTerm :=
  if method ∈ validRankMethods then Except.ok ⟨f, false⟩
  else Except.error GraphError.unknownRankMethod

/-! ## Term identity and the quantile helpers
(spec sections 4.5, 9; `test_quantile_helpers`) -/

/-- Modelled from the spec: pipeline terms are deduplicated by a structural
key (operation + parameters + input identities), and identity comparison is
key-equality (spec section 9, "content-addressed interning"); term identity
is therefore modelled as structural equality of this type. -/
inductive QTerm where
  | baseFactor (id : Nat)
  | baseFilter (id : Nat)
  | quantilesTerm (input : QTerm) (bins : Nat) (mask : Option QTerm)

/-- Modelled from the spec: `quartiles(mask)` constructs
`quantiles(bins=4, mask)` (spec section 4.5; `test_quantile_helpers`). -/
def quartiles (f : QTerm) (mask : Option QTerm) : QTerm :=
  QTerm.quantilesTerm f 4 mask

/-- Modelled from the spec: `quintiles(mask)` constructs
`quantiles(bins=5, mask)`. -/
def quintiles (f : QTerm) (mask : Option QTerm) : QTerm :=
  QTerm.quantilesTerm f 5 mask

/-- Modelled from the spec: `deciles(mask)` constructs
`quantiles(bins=10, mask)`. -/
def deciles (f : QTerm) (mask : Option QTerm) : QTerm :=
  QTerm.quantilesTerm f 10 mask

/-! ## Scheduler lifecycle (spec section 4.7;
`test_attach_pipeline_after_initialize`, `test_pipeline_output_after_initialize`,
`test_get_output_nonexistent_pipeline`, `test_duplicate_pipeline_names`) -/

/-- The scheduler state visible to the attach/output surface: whether the
run's initial setup phase has finished, and the registered pipelines by
name.  Modelled from the spec (spec section 4.7); the driving algorithm
class is not in the visible source. -/
structure SchedState where
  initDone : Bool
  pipelines : List (String × Nat)
deriving DecidableEq

/-- The lifecycle error taxonomy (spec section 7). -/
inductive LifecycleError where
  | attachAfterInit
  | outputDuringInit
  | noSuchPipeline
  | duplicatePipelineName
deriving DecidableEq

/-- Modelled from the spec: `attach(pipeline, name, chunks)` is only legal
before the run's first simulated day; attaching later fails, as does
re-using a registered name; a failed call raises without mutating the
registry (spec section 4.7).  The returned state is paired with the raised
error, if any. -/
def attachPipelineOp (s : SchedState) (name : String) (pid : Nat) :
    SchedState × Option LifecycleError :=
  if s.initDone then (s, some LifecycleError.attachAfterInit)
  else if s.pipelines.any (fun p => decide (p.1 = name)) then
    (s, some LifecycleError.duplicatePipelineName)
  else ({ s with pipelines := s.pipelines ++ [(name, pid)] }, none)

/-- Modelled from the spec: `output(name)` is only legal after a day's
pre-computation step has run; during the initial setup phase it fails, and
an unregistered name fails with "no such pipeline"; a failed call leaves
the scheduler state untouched (spec section 4.7). -/
def pipelineOutputOp (s : SchedState) (name : String) :
    (SchedState × Option Nat) × Option LifecycleError :=
  if s.initDone then
    match s.pipelines.find? (fun p => decide (p.1 = name)) with
    | none => ((s, none), some LifecycleError.noSuchPipeline)
    | some p => ((s, some p.2), none)
  else ((s, none), some LifecycleError.outputDuringInit)

/-! ## Chunked evaluation (spec section 4.7;
`test_assets_appear_on_correct_days_daily_mode` and `_minute_mode`) -/

/-- A pipeline term of the chunk-invariance model: the latest value of a
data column, or a simple moving average over a lookback window.  Modelled
from the spec's Term Graph (spec sections 3, 4.1): what matters for
chunk-size invariance is the window requirement each term imposes. -/
inductive PipeTerm where
  | latestCol (col : Nat)
  | smaTerm (col : Nat) (wl : Nat)
deriving DecidableEq

/-- A term's own window length (`latest` has window length 1). -/
def termWL : PipeTerm → Nat
  | .latestCol _ => 1
  | .smaTerm _ wl => wl

/-- The longest window any term of the pipeline demands; the scheduler must
buffer `maxWL p - 1` extra historical rows ahead of a chunk (spec
section 4.1). -/
def maxWL (p : List PipeTerm) : Nat :=
  p.foldr (fun t acc => max (termWL t) acc) 1

/-- Reference semantics: the value a term shows for (absolute) session `d`,
computed directly from the underlying data panel. -/
def evalAbs (data : Nat → Nat → ℚ) : PipeTerm → Nat → ℚ
  | .latestCol c, d => data d c
  | .smaTerm c wl, d =>
      (((List.range wl).map (fun j => data (d + 1 - wl + j) c)).sum) / (wl : ℚ)

/-- Row `i` of the chunk's materialized buffer, which starts at absolute
session `bufStart` (spec section 4.2: the adjusted rolling-window buffer
serves windows by buffer-relative rows). -/
def bufData (data : Nat → Nat → ℚ) (bufStart i c : Nat) : ℚ :=
  data (bufStart + i) c

/-- Engine semantics: the value a term computes for buffer-relative row `r`
of a chunk whose buffer starts at `bufStart`. -/
def evalRel (data : Nat → Nat → ℚ) (bufStart : Nat) : PipeTerm → Nat → ℚ
  | .latestCol c, r => bufData data bufStart r c
  | .smaTerm c wl, r =>
      (((List.range wl).map (fun j => bufData data bufStart (r + 1 - wl + j) c)).sum) / (wl : ℚ)

/-- Modelled from the spec: one chunked pass of the scheduler.  For a chunk
of `len` sessions starting at session `a`, the engine materializes a buffer
beginning `maxWL p - 1` rows earlier and computes each of the chunk's days
from buffer-relative windows (spec sections 4.1, 4.2, 4.7). -/
def chunkOutputs (data : Nat → Nat → ℚ) (p : List PipeTerm) (a len : Nat) :
    List (List ℚ) :=
  (List.range len).map (fun k =>
    p.map (fun t =>
      evalRel data (a - (maxWL p - 1)) t (a - (a - (maxWL p - 1)) + k)))

/-- Modelled from the spec: the scheduler's run loop over a day-chunking:
each chunk is computed in one pass, and the per-day outputs are served in
order (spec section 4.7). -/
def chunkedRun (data : Nat → Nat → ℚ) (p : List PipeTerm) :
    Nat → List Nat → List (List ℚ)
  | _, [] => []
  | a, c :: rest => chunkOutputs data p a c ++ chunkedRun data p (a + c) rest

/-! ## Point-in-time adjusted VWAP windows
(`compute_expected_vwaps` / `test_handle_adjustment` in
`test_pipeline_algo.py`; spec sections 4.2, 8) -/

/-- Sum of `f` over the `L` rows ending at row `e`. -/
def windowSum (f : Nat → ℚ) (L e : Nat) : ℚ :=
  ((List.range L).map (fun j => f (e + 1 - L + j))).sum

/-- Rolling volume-weighted average price over the `L` rows ending at row
`e` (the `rolling_vwap` reference of `test_pipeline_algo.py`). -/
def rollingVwapAt (close vol : Nat → ℚ) (L e : Nat) : ℚ :=
  windowSum (fun j => close j * vol j) L e / windowSum vol L e

/-- The close column after a split at row `r` is applied: rows before `r`
are divided by the split ratio so that history is expressed in as-of-date
terms; rows at or after `r` are as-traded (`compute_expected_vwaps`). -/
def adjCloseF (r : Nat) (ratio : ℚ) (close : Nat → ℚ) (j : Nat) : ℚ :=
  if j < r then close j / ratio else close j

/-- The volume column after a split at row `r` is applied: rows before `r`
are multiplied by the split ratio (`compute_expected_vwaps`). -/
def adjVolF (r : Nat) (ratio : ℚ) (vol : Nat → ℚ) (j : Nat) : ℚ :=
  if j < r then vol j * ratio else vol j

/-- Modelled from the spec and `compute_expected_vwaps`: the VWAP value the
pipeline shows on session `t` for window length `L`, with a split of ratio
`ratio` effective at row `r`.  Outputs are shifted one session forward
("We can't show the close price for day N until day N + 1"), so session
`t`'s output is the window ending at row `t - 1`; it is computed from the
raw columns while `t < r` (the split not yet discovered) and from the
split-adjusted columns once `t ≥ r`. -/
def expectedVwapOut (close vol : Nat → ℚ) (r : Nat) (ratio : ℚ) (L t : Nat) : ℚ :=
  if t < r then rollingVwapAt close vol L (t - 1)
  else rollingVwapAt (adjCloseF r ratio close) (adjVolF r ratio vol) L (t - 1)

end ZiplineSpec

namespace ZiplineSpec

/-! ## Model validation against the visible tests

The following anchors check the modelled kernels against the expected
values hard-coded in `test_factor.py` (ranking with every tie-break method,
ascending and descending, masked and grouped; the hand-computed demean and
winsorize examples; quantile bucketing with even and uneven buckets, masks
and NaNs). -/

example : rankRow RankMethod.ordinal true ([0, 1, 2, 3, 0].map some)
    (List.replicate 5 true) (unitLabs 5)
    = [some 1, some 3, some 4, some 5, some 2] := by with_unfolding_all decide

example : rankRow RankMethod.average true ([0, 1, 2, 3, 0].map some)
    (List.replicate 5 true) (unitLabs 5)
    = [some (3/2), some 3, some 4, some 5, some (3/2)] := by with_unfolding_all decide

example : rankRow RankMethod.minRank true ([0, 1, 2, 3, 0].map some)
    (List.replicate 5 true) (unitLabs 5)
    = [some 1, some 3, some 4, some 5, some 1] := by with_unfolding_all decide

example : rankRow RankMethod.maxRank true ([0, 1, 2, 3, 0].map some)
    (List.replicate 5 true) (unitLabs 5)
    = [some 2, some 3, some 4, some 5, some 2] := by with_unfolding_all decide

example : rankRow RankMethod.dense true ([0, 1, 2, 3, 0].map some)
    (List.replicate 5 true) (unitLabs 5)
    = [some 1, some 2, some 3, some 4, some 1] := by with_unfolding_all decide

example : rankRow RankMethod.ordinal false ([1, 2, 3, 0, 1].map some)
    (List.replicate 5 true) (unitLabs 5)
    = [some 3, some 2, some 1, some 5, some 4] := by with_unfolding_all decide

example : rankRow RankMethod.average false ([1, 2, 3, 0, 1].map some)
    (List.replicate 5 true) (unitLabs 5)
    = [some (7/2), some 2, some 1, some 5, some (7/2)] := by with_unfolding_all decide

example : rankRow RankMethod.dense false ([1, 2, 3, 0, 1].map some)
    (List.replicate 5 true) (unitLabs 5)
    = [some 3, some 2, some 1, some 4, some 3] := by with_unfolding_all decide

example : rankRow RankMethod.ordinal true ([0, 1, 2, 3, 0].map some)
    [false, true, true, true, true] (unitLabs 5)
    = [none, some 2, some 3, some 4, some 1] := by with_unfolding_all decide

example : rankRow RankMethod.ordinal false ([3, 0, 1, 2, 3].map some)
    [true, true, true, false, true] (unitLabs 5)
    = [some 1, some 4, some 3, none, some 2] := by with_unfolding_all decide

example : rankRow RankMethod.ordinal true ([0, 1, 2, 3, 0].map some)
    (List.replicate 5 true) ([0, 1, 0, 1, 0].map (some : ℤ → Option ℤ))
    = [some 1, some 1, some 3, some 2, some 2] := by with_unfolding_all decide

example : rankRow RankMethod.average true ([0, 1, 2, 3, 0].map some)
    (List.replicate 5 true) ([0, 1, 0, 1, 0].map (some : ℤ → Option ℤ))
    = [some (3/2), some 1, some 3, some 2, some (3/2)] := by with_unfolding_all decide

example : rankRow RankMethod.ordinal false ([1, 2, 3, 0, 1].map some)
    (List.replicate 5 true) ([1, 0, 1, 0, 1].map (some : ℤ → Option ℤ))
    = [some 2, some 1, some 1, some 2, some 3] := by with_unfolding_all decide

example : demeanRow ([1, 2, 3, 4].map some) (List.replicate 4 true) (unitLabs 4)
    = [some (-3/2), some (-1/2), some (1/2), some (3/2)] := by with_unfolding_all decide

example : demeanRow ([2, 3, 4, 3/2].map some) [true, true, false, true] (unitLabs 4)
    = [some (-1/6), some (5/6), none, some (-2/3)] := by with_unfolding_all decide

example : demeanRow ([3/2, 5/2, 7/2, 1].map some) (List.replicate 4 true)
    ([1, 1, 2, 2].map (some : ℤ → Option ℤ))
    = [some (-1/2), some (1/2), some (5/4), some (-5/4)] := by with_unfolding_all decide

example : demeanRow ([5/2, 7/2, 1, 2].map some) [true, true, true, false]
    ([1, 1, 2, 2].map (some : ℤ → Option ℤ))
    = [some (-1/2), some (1/2), some 0, none] := by with_unfolding_all decide

example : winsorizeList (1/10) (9/10) [0, 1, 2, 3, 4, 5, 6, 7, 8, 9]
    = [1, 1, 2, 3, 4, 5, 6, 7, 8, 8] := by with_unfolding_all decide

example : winsorizeList (2/10) (8/10) [0, 1, 2, 3, 4, 5, 6, 7, 8, 9]
    = [2, 2, 2, 3, 4, 5, 6, 7, 7, 7] := by with_unfolding_all decide

example : winsorizeList 0 (8/10) [0, 1, 2, 3, 4, 5, 6, 7, 8, 9]
    = [0, 1, 2, 3, 4, 5, 6, 7, 7, 7] := by with_unfolding_all decide

example : winsorizeList (2/10) 1 [0, 1, 2, 3, 4, 5, 6, 7, 8, 9]
    = [2, 2, 2, 3, 4, 5, 6, 7, 8, 9] := by with_unfolding_all decide

example : winsorizeList 0 1 [0, 1, 2, 3, 4, 5, 6, 7, 8, 9]
    = [0, 1, 2, 3, 4, 5, 6, 7, 8, 9] := by with_unfolding_all decide

example : winsorizeList (1/10) (9/10) [2, 1, 6, 8, 7, 5, 3, 9, 4, 0]
    = [2, 1, 6, 8, 7, 5, 3, 8, 4, 1] := by with_unfolding_all decide

example : winsorizeRow (33/100) (67/100) ([1, 2, 3, 4, 5, 6, 7, 8, 9].map some)
    (List.replicate 9 true) (unitLabs 9)
    = [some 3, some 3, some 3, some 4, some 5, some 6, some 7, some 7, some 7] := by
  with_unfolding_all decide

example : winsorizeRow (49/100) 1 (([6, 5, 4, 3, 2, 1].map some) ++ [none, none, none])
    (List.replicate 9 true) (unitLabs 9)
    = [some 6, some 5, some 4, some 3, some 3, some 3, none, none, none] := by
  with_unfolding_all decide

example : winsorizeRow 0 (67/100) (([1, 8, 27, 64, 125, 216].map some) ++ [none, none, none])
    (List.replicate 9 true) (unitLabs 9)
    = [some 1, some 8, some 27, some 64, some 125, some 125, none, none, none] := by
  with_unfolding_all decide

example : winsorizeRow (33/100) (67/100) (([1, 2, 3, 4, 5, 6].map some) ++ [none, none, none])
    ([false] ++ List.replicate 8 true) (unitLabs 9)
    = [none, some 3, some 3, some 4, some 5, some 5, none, none, none] := by
  with_unfolding_all decide

example : winsorizeRow (34/100) (66/100) ([1, 2, 3, 4, 5, 6, 7, 8, 9].map some)
    (List.replicate 9 true) ([1, 1, 1, 2, 2, 2, 1, 1, 1].map (some : ℤ → Option ℤ))
    = [some 3, some 3, some 3, some 5, some 5, some 5, some 7, some 7, some 7] := by
  with_unfolding_all decide

example : winsorizeRow (34/100) (66/100)
    (([1, 8, 27, 64, 125, 216].map some) ++ [none, none, none])
    ([true, false] ++ List.replicate 7 true)
    ([1, 1, 1, 2, 2, 2, 1, 1, 1].map (some : ℤ → Option ℤ))
    = [some 1, none, some 27, some 125, some 125, some 125, none, none, none] := by
  with_unfolding_all decide

example : quantilesRow 2 ([0, 1, 2, 3, 4, 5].map some) (List.replicate 6 true)
    = [0, 0, 0, 1, 1, 1] := by with_unfolding_all decide

example : quantilesRow 3 ([0, 1, 2, 3, 4, 5].map some) (List.replicate 6 true)
    = [0, 0, 1, 1, 2, 2] := by with_unfolding_all decide

example : quantilesRow 6 ([0, 1, 2, 3, 4, 5].map some) (List.replicate 6 true)
    = [0, 1, 2, 3, 4, 5] := by with_unfolding_all decide

example : quantilesRow 3 ([0, 1, 2, 3, 4, 5, 6].map some)
    ([false] ++ List.replicate 6 true)
    = [-1, 0, 0, 1, 1, 2, 2] := by with_unfolding_all decide

example : quantilesRow 2 ([none] ++ [1, 2, 3, 4, 5, 6].map some) (List.replicate 7 true)
    = [-1, 0, 0, 0, 1, 1, 1] := by with_unfolding_all decide

example : quantilesRow 3 ([0, 1, 2, 3, 4].map some) ([false] ++ List.replicate 4 true)
    = [-1, 0, 0, 1, 2] := by with_unfolding_all decide

example : quantilesRow 7 ([0, 1, 2, 3, 4].map some) ([false] ++ List.replicate 4 true)
    = [-1, 0, 2, 4, 6] := by with_unfolding_all decide


theorem getD_map_range {α : Type} (n i : Nat) (f : Nat → α) (d : α) (h : i < n) :
    ((List.range n).map f).getD i d = f i := by
  rw [List.getD_eq_getElem?_getD, List.getElem?_map, List.getElem?_range h]
  rfl

theorem getD_map_idxOfN {α : Type} (l : List Nat) (h : Nat → α) (i : Nat) (d : α)
    (hm : i ∈ l) : (l.map h).getD (idxOfN i l) d = h i := by
  induction l with
  | nil => cases hm
  | cons a t ih =>
      by_cases hai : a = i
      · subst hai
        simp [idxOfN]
      · have ht : i ∈ t := by
          cases hm with
          | head => exact absurd rfl hai
          | tail _ h => exact h
        simp only [idxOfN, if_neg hai, List.map_cons]
        simpa using ih ht

theorem mem_includedIdx {L : Type} [DecidableEq L] (vals : List (Option ℚ))
    (mask : List Bool) (labs : List (Option L)) (g : Option L) (j : Nat) :
    j ∈ includedIdx vals mask labs g ↔
      j < vals.length ∧ mask.getD j false = true ∧ (vals.getD j none).isSome = true ∧
        labs.getD j none = g := by
  simp [includedIdx, List.mem_filter, List.mem_range]
  tauto

theorem self_mem_includedIdx {L : Type} [DecidableEq L] {vals : List (Option ℚ)}
    {mask : List Bool} {labs : List (Option L)} {i : Nat} (hlen : i < vals.length)
    (hincl : inclB vals mask labs i = true) :
    i ∈ includedIdx vals mask labs (labs.getD i none) := by
  have h := hincl
  simp only [inclB, Bool.and_eq_true] at h
  exact (mem_includedIdx vals mask labs _ i).mpr ⟨hlen, h.1.1, h.1.2, rfl⟩

theorem groupedRowApply_getD_excluded {α L : Type} [DecidableEq L] (f : List ℚ → List α)
    (missingOut : α) (vals : List (Option ℚ)) (mask : List Bool) (labs : List (Option L))
    (i : Nat) (h : inclB vals mask labs i = false) :
    (groupedRowApply f missingOut vals mask labs).getD i missingOut = missingOut := by
  by_cases hlen : i < vals.length
  · rw [groupedRowApply, getD_map_range _ _ _ _ hlen, h]
    simp
  · rw [List.getD_eq_getElem?_getD, List.getElem?_eq_none]
    · rfl
    · simpa [groupedRowApply] using Nat.le_of_not_lt hlen

theorem groupedRowApply_getD_pointwise {α L : Type} [DecidableEq L]
    (h : List ℚ → ℚ → α) (missingOut : α) (vals : List (Option ℚ)) (mask : List Bool)
    (labs : List (Option L)) (i : Nat) (hlen : i < vals.length)
    (hincl : inclB vals mask labs i = true) :
    (groupedRowApply (fun xs => xs.map (h xs)) missingOut vals mask labs).getD i missingOut
      = h (groupValues vals mask labs i) (cellVal vals i) := by
  rw [groupedRowApply, getD_map_range _ _ _ _ hlen, hincl]
  simp only [if_true]
  rw [show
    ((includedIdx vals mask labs (labs.getD i none)).map (cellVal vals)).map
        (h ((includedIdx vals mask labs (labs.getD i none)).map (cellVal vals)))
      = (includedIdx vals mask labs (labs.getD i none)).map
          (fun j => h (groupValues vals mask labs i) (cellVal vals j)) by
    rw [List.map_map]
    rfl]
  exact getD_map_idxOfN _ _ _ _ (self_mem_includedIdx hlen hincl)


theorem includedIdx_congr_vals {L : Type} [DecidableEq L] (vals vals' : List (Option ℚ))
    (mask : List Bool) (labs : List (Option L)) (g : Option L)
    (hlen : vals.length = vals'.length)
    (hagree : ∀ j, j < vals.length → mask.getD j false = true →
      vals.getD j none = vals'.getD j none) :
    includedIdx vals mask labs g = includedIdx vals' mask labs g := by
  unfold includedIdx
  rw [← hlen]
  apply List.filter_congr
  intro j hj
  rw [List.mem_range] at hj
  by_cases hm : mask.getD j false = true
  · rw [hagree j hj hm]
  · have hf : mask.getD j false = false := by
      revert hm
      cases mask.getD j false <;> simp
    rw [hf]
    simp

theorem groupedRowApply_congr_vals {α L : Type} [DecidableEq L] (f : List ℚ → List α)
    (missingOut : α) (vals vals' : List (Option ℚ)) (mask : List Bool)
    (labs : List (Option L)) (hlen : vals.length = vals'.length)
    (hagree : ∀ j, j < vals.length → mask.getD j false = true →
      vals.getD j none = vals'.getD j none) :
    groupedRowApply f missingOut vals mask labs
      = groupedRowApply f missingOut vals' mask labs := by
  unfold groupedRowApply
  rw [← hlen]
  apply List.map_congr_left
  intro i hi
  rw [List.mem_range] at hi
  have hincl : inclB vals mask labs i = inclB vals' mask labs i := by
    unfold inclB
    by_cases hm : mask.getD i false = true
    · rw [hagree i hi hm]
    · have hf : mask.getD i false = false := by
        revert hm
        cases mask.getD i false <;> simp
      rw [hf]
      simp
  rw [← hincl]
  by_cases hb : inclB vals mask labs i = true
  · rw [hb]
    simp only [if_true]
    rw [← includedIdx_congr_vals vals vals' mask labs _ hlen hagree]
    have hvals : ∀ j ∈ includedIdx vals mask labs (labs.getD i none),
        cellVal vals j = cellVal vals' j := by
      intro j hj
      rw [mem_includedIdx] at hj
      unfold cellVal
      rw [hagree j hj.1 hj.2.1]
    rw [List.map_congr_left hvals]
  · rw [Bool.eq_false_iff.mpr hb]
    simp

theorem includedIdx_congr_labs {L1 L2 : Type} [DecidableEq L1] [DecidableEq L2]
    (vals : List (Option ℚ)) (mask : List Bool)
    (labs1 : List (Option L1)) (labs2 : List (Option L2)) (i : Nat)
    (hpart : ∀ j j', j < vals.length → j' < vals.length →
      ((labs1.getD j none = labs1.getD j' none) ↔ (labs2.getD j none = labs2.getD j' none)))
    (hi : i < vals.length) :
    includedIdx vals mask labs1 (labs1.getD i none)
      = includedIdx vals mask labs2 (labs2.getD i none) := by
  unfold includedIdx
  apply List.filter_congr
  intro j hj
  rw [List.mem_range] at hj
  have : (labs1.getD j none = labs1.getD i none) ↔
      (labs2.getD j none = labs2.getD i none) := hpart j i hj hi
  rw [show (decide (labs1.getD j none = labs1.getD i none))
      = (decide (labs2.getD j none = labs2.getD i none)) from decide_eq_decide.mpr this]

theorem groupedRowApply_congr_labs {α L1 L2 : Type} [DecidableEq L1] [DecidableEq L2]
    (f : List ℚ → List α) (missingOut : α) (vals : List (Option ℚ)) (mask : List Bool)
    (labs1 : List (Option L1)) (labs2 : List (Option L2))
    (hsome : ∀ j, j < vals.length →
      (labs1.getD j none).isSome = (labs2.getD j none).isSome)
    (hpart : ∀ j j', j < vals.length → j' < vals.length →
      ((labs1.getD j none = labs1.getD j' none) ↔ (labs2.getD j none = labs2.getD j' none))) :
    groupedRowApply f missingOut vals mask labs1
      = groupedRowApply f missingOut vals mask labs2 := by
  unfold groupedRowApply
  apply List.map_congr_left
  intro i hi
  rw [List.mem_range] at hi
  have hincl : inclB vals mask labs1 i = inclB vals mask labs2 i := by
    unfold inclB
    rw [hsome i hi]
  rw [← hincl]
  by_cases hb : inclB vals mask labs1 i = true
  · rw [hb]
    simp only [if_true]
    rw [includedIdx_congr_labs vals mask labs1 labs2 i hpart hi]
  · rw [Bool.eq_false_iff.mpr hb]
    simp


theorem one_le_maxWL (p : List PipeTerm) : 1 ≤ maxWL p := by
  induction p with
  | nil => exact Nat.le_refl 1
  | cons t rest ih =>
      unfold maxWL at ih ⊢
      simp only [List.foldr_cons]
      omega

theorem termWL_le_maxWL {t : PipeTerm} {p : List PipeTerm} (h : t ∈ p) :
    termWL t ≤ maxWL p := by
  induction p with
  | nil => cases h
  | cons a rest ih =>
      unfold maxWL at ih ⊢
      simp only [List.foldr_cons]
      cases h with
      | head => omega
      | tail _ hmem => have := ih hmem; omega

theorem evalRel_eq_evalAbs (data : Nat → Nat → ℚ) (t : PipeTerm) (b r : Nat)
    (h : termWL t ≤ r + 1) : evalRel data b t r = evalAbs data t (b + r) := by
  cases t with
  | latestCol c => rfl
  | smaTerm c wl =>
      simp only [evalRel, evalAbs, bufData, termWL] at h ⊢
      have hpt : ∀ j ∈ List.range wl, data (b + (r + 1 - wl + j)) c
          = data (b + r + 1 - wl + j) c := by
        intro j hj
        rw [List.mem_range] at hj
        congr 1
        omega
      rw [List.map_congr_left hpt]

theorem chunkOutputs_eq (data : Nat → Nat → ℚ) (p : List PipeTerm) (a len : Nat)
    (ha : maxWL p - 1 ≤ a) :
    chunkOutputs data p a len
      = (List.range len).map (fun k => p.map (fun t => evalAbs data t (a + k))) := by
  unfold chunkOutputs
  apply List.map_congr_left
  intro k _
  apply List.map_congr_left
  intro t ht
  have hwl : termWL t ≤ maxWL p := termWL_le_maxWL ht
  have h1 : 1 ≤ maxWL p := one_le_maxWL p
  have harg : termWL t ≤ (a - (a - (maxWL p - 1)) + k) + 1 := by omega
  rw [evalRel_eq_evalAbs data t _ _ harg]
  congr 1
  omega

theorem chunkedRun_eq (data : Nat → Nat → ℚ) (p : List PipeTerm) (start : Nat)
    (cs : List Nat) (h : maxWL p - 1 ≤ start) :
    chunkedRun data p start cs
      = (List.range cs.sum).map (fun k => p.map (fun t => evalAbs data t (start + k))) := by
  induction cs generalizing start with
  | nil => rfl
  | cons c rest ih =>
      have hstep : maxWL p - 1 ≤ start + c := by omega
      unfold chunkedRun
      rw [chunkOutputs_eq data p start c h, ih (start + c) hstep]
      rw [List.sum_cons, List.range_add, List.map_append, List.map_map]
      congr 1
      apply List.map_congr_left
      intro k _
      simp only [Function.comp_apply]
      rw [Nat.add_assoc]

theorem windowSum_one (f : Nat → ℚ) (e : Nat) : windowSum f 1 e = f e := by
  unfold windowSum
  rw [show List.range 1 = [0] from rfl]
  simp

theorem rollingVwapAt_one (close vol : Nat → ℚ) (e : Nat) (hv : vol e ≠ 0) :
    rollingVwapAt close vol 1 e = close e := by
  unfold rollingVwapAt
  rw [windowSum_one, windowSum_one]
  exact mul_div_cancel_right₀ (close e) hv


/-- C7: for every input cell excluded by the effective mask or holding a
missing value, the output of rank, demean, zscore, winsorize, and quantiles
at that cell is the missing sentinel (`none`, modelling NaN, for the float
outputs; `-1` for quantile buckets), never a numeric value; such cells are
members of no group, and the values of mask-excluded cells never influence
any output cell. -/
theorem claim7_masked_cells_missing_and_inert {L : Type} [DecidableEq L]
    (vals vals' : List (Option ℚ)) (mask : List Bool) (labs : List (Option L))
    (std : List ℚ → ℚ) (lo hi : ℚ) (bins : Nat) (m : RankMethod) (asc : Bool) (i : Nat) :
    (¬ (mask.getD i false = true ∧ (vals.getD i none).isSome = true) →
      (demeanRow vals mask labs).getD i none = none ∧
      (zscoreRow std vals mask labs).getD i none = none ∧
      (winsorizeRow lo hi vals mask labs).getD i none = none ∧
      (rankRow m asc vals mask labs).getD i none = none ∧
      (quantilesRow bins vals mask).getD i (-1) = -1) ∧
    (∀ g j, j ∈ includedIdx vals mask labs g →
      mask.getD j false = true ∧ (vals.getD j none).isSome = true) ∧
    (vals.length = vals'.length →
      (∀ j, j < vals.length → mask.getD j false = true →
        vals.getD j none = vals'.getD j none) →
      demeanRow vals mask labs = demeanRow vals' mask labs ∧
      zscoreRow std vals mask labs = zscoreRow std vals' mask labs ∧
      winsorizeRow lo hi vals mask labs = winsorizeRow lo hi vals' mask labs ∧
      rankRow m asc vals mask labs = rankRow m asc vals' mask labs ∧
      quantilesRow bins vals mask = quantilesRow bins vals' mask) := by
  refine ⟨?_, ?_, ?_⟩
  · intro hexcl
    have hfalse : (mask.getD i false && (vals.getD i none).isSome) = false := by
      by_cases h1 : mask.getD i false = true
      · by_cases h2 : (vals.getD i none).isSome = true
        · exact absurd ⟨h1, h2⟩ hexcl
        · have h2' : (vals.getD i none).isSome = false := by
            revert h2
            cases (vals.getD i none).isSome <;> simp
          rw [h1, h2']
          rfl
      · have h1' : mask.getD i false = false := by
          revert h1
          cases mask.getD i false <;> simp
        rw [h1']
        rfl
    have hb : ∀ (L' : Type) (inst : DecidableEq L') (labs' : List (Option L')),
        inclB vals mask labs' i = false := by
      intro L' inst labs'
      unfold inclB
      rw [hfalse]
      rfl
    exact ⟨groupedRowApply_getD_excluded _ _ _ _ _ _ (hb L _ labs),
      groupedRowApply_getD_excluded _ _ _ _ _ _ (hb L _ labs),
      groupedRowApply_getD_excluded _ _ _ _ _ _ (hb L _ labs),
      groupedRowApply_getD_excluded _ _ _ _ _ _ (hb L _ labs),
      groupedRowApply_getD_excluded _ _ _ _ _ _ (hb Unit _ (unitLabs vals.length))⟩
  · intro g j hj
    rw [mem_includedIdx] at hj
    exact ⟨hj.2.1, hj.2.2.1⟩
  · intro hlen hagree
    refine ⟨groupedRowApply_congr_vals _ _ _ _ _ _ hlen hagree,
      groupedRowApply_congr_vals _ _ _ _ _ _ hlen hagree,
      groupedRowApply_congr_vals _ _ _ _ _ _ hlen hagree,
      groupedRowApply_congr_vals _ _ _ _ _ _ hlen hagree, ?_⟩
    unfold quantilesRow
    rw [← hlen]
    exact groupedRowApply_congr_vals _ _ _ _ _ _ hlen hagree

/-- C4: for every float64 factor row and every combination of mask and
groupby, `demean` equals value minus the row-(group-)mean, and `zscore`
equals (value minus mean) divided by the standard deviation, where the mean
and standard deviation are the reductions over exactly the cells of the
cell's group (ignoring missing and masked cells), and excluded cells are
missing. -/
theorem claim4_demean_zscore_summary_identity {L : Type} [DecidableEq L]
    (std : List ℚ → ℚ) (vals : List (Option ℚ)) (mask : List Bool)
    (labs : List (Option L)) (i : Nat) (hlen : i < vals.length) :
    (demeanRow vals mask labs).getD i none
        = (if inclB vals mask labs i then
            some (cellVal vals i - listMean (groupValues vals mask labs i)) else none) ∧
    (zscoreRow std vals mask labs).getD i none
        = (if inclB vals mask labs i then
            some ((cellVal vals i - listMean (groupValues vals mask labs i))
              / std (groupValues vals mask labs i)) else none) := by
  by_cases hb : inclB vals mask labs i = true
  · rw [if_pos hb, if_pos hb]
    constructor
    · exact groupedRowApply_getD_pointwise
        (fun xs x => some (x - listMean xs)) none vals mask labs i hlen hb
    · exact groupedRowApply_getD_pointwise
        (fun xs x => some ((x - listMean xs) / std xs)) none vals mask labs i hlen hb
  · have hb' : inclB vals mask labs i = false := Bool.eq_false_iff.mpr hb
    rw [if_neg hb, if_neg hb]
    exact ⟨groupedRowApply_getD_excluded _ _ _ _ _ _ hb',
      groupedRowApply_getD_excluded _ _ _ _ _ _ hb'⟩

/-- C10: the grouped kernels (rank with any tie-break method, demean,
zscore, winsorize) depend only on the partition a classifier induces on the
row, not on the classifier's dtype or label values: two classifier rows
(of possibly different label types) that agree on which cells have missing
labels and on which pairs of cells share a label produce identical
outputs. -/
theorem claim10_classifier_dtype_noninterference {L1 L2 : Type}
    [DecidableEq L1] [DecidableEq L2] (vals : List (Option ℚ)) (mask : List Bool)
    (labs1 : List (Option L1)) (labs2 : List (Option L2)) (std : List ℚ → ℚ)
    (lo hi : ℚ) (m : RankMethod) (asc : Bool)
    (hsome : ∀ j, j < vals.length →
      (labs1.getD j none).isSome = (labs2.getD j none).isSome)
    (hpart : ∀ j, j < vals.length → ∀ j', j' < vals.length →
      ((labs1.getD j none = labs1.getD j' none) ↔
        (labs2.getD j none = labs2.getD j' none))) :
    rankRow m asc vals mask labs1 = rankRow m asc vals mask labs2 ∧
    demeanRow vals mask labs1 = demeanRow vals mask labs2 ∧
    zscoreRow std vals mask labs1 = zscoreRow std vals mask labs2 ∧
    winsorizeRow lo hi vals mask labs1 = winsorizeRow lo hi vals mask labs2 := by
  have hpart' : ∀ j j', j < vals.length → j' < vals.length →
      ((labs1.getD j none = labs1.getD j' none) ↔
        (labs2.getD j none = labs2.getD j' none)) :=
    fun j j' hj hj' => hpart j hj j' hj'
  exact ⟨groupedRowApply_congr_labs _ _ _ _ _ _ hsome hpart',
    groupedRowApply_congr_labs _ _ _ _ _ _ hsome hpart',
    groupedRowApply_congr_labs _ _ _ _ _ _ hsome hpart',
    groupedRowApply_congr_labs _ _ _ _ _ _ hsome hpart'⟩

/-- C9: `rank()` with no method argument computes exactly `rank` with
`method='ordinal'`, and omitting `ascending` computes exactly
`ascending=True`, for every input row, mask, and groupby classifier; on the
5-asset row of `test_rank_ascending`/`test_grouped_rank_ascending` the
defaulted call reproduces the hard-coded ordinal-ascending expectations,
ungrouped and grouped. -/
theorem claim9_rank_default_arguments {L : Type} [DecidableEq L]
    (vals : List (Option ℚ)) (mask : List Bool) (labs : List (Option L))
    (m : RankMethod) (asc : Bool) :
    rankCall none none vals mask labs = rankRow RankMethod.ordinal true vals mask labs ∧
    rankCall none (some asc) vals mask labs
      = rankRow RankMethod.ordinal asc vals mask labs ∧
    rankCall (some m) none vals mask labs = rankRow m true vals mask labs ∧
    rankCall none none [some 0, some 1, some 2, some 3, some 0]
        (List.replicate 5 true) (unitLabs 5)
      = [some 1, some 3, some 4, some 5, some 2] ∧
    rankCall none none [some 0, some 1, some 2, some 3, some 0]
        (List.replicate 5 true) ([some 0, some 1, some 0, some 1, some 0] : List (Option ℤ))
      = [some 1, some 1, some 3, some 2, some 2] :=
  ⟨rfl, rfl, rfl, by with_unfolding_all decide, by with_unfolding_all decide⟩


/-- C2 (counterexample): the claim asserts that invoking `rank` on a Factor
whose dtype is not float64 fails with a type error, but the visible tests
(`test_rank_ascending` and friends) rank datetime64ns Factors end-to-end:
constructing a rank of a datetime64ns Factor succeeds. -/
theorem claim2_counterexample :
    mkRank ⟨Dtype.datetime64ns, false⟩ "ordinal"
        = Except.ok ⟨⟨Dtype.datetime64ns, false⟩, false⟩ ∧
      Dtype.datetime64ns ≠ Dtype.float64 := by
  constructor
  · rfl
  · decide

/-- C2 (amended): for every Factor whose dtype is not float64, invoking
demean, zscore, winsorize, or quantiles fails with a type error at
term-construction time, before any numeric computation; `rank` is not
float64-only: with a recognised method name it constructs successfully on
any dtype (the tests exercise datetime64ns), and its construction-time
failure is the unknown-rank-method error instead. -/
theorem claim2_float_only_operations (f : FactorSpec) (lo hi : ℚ) (bins : Nat)
    (method : String) (hdt : f.dtype ≠ Dtype.float64) :
    mkDemean f = Except.error GraphError.typeError ∧
    mkZscore f = Except.error GraphError.typeError ∧
    mkWinsorize f lo hi = Except.error GraphError.typeError ∧
    mkQuantiles f bins = Except.error GraphError.typeError ∧
    (method ∈ validRankMethods → mkRank f method = Except.ok ⟨f, false⟩) ∧
    (method ∉ validRankMethods →
      mkRank f method = Except.error GraphError.unknownRankMethod) := by
  refine ⟨?_, ?_, ?_, ?_, ?_, ?_⟩
  · rw [mkDemean, if_neg hdt]
  · rw [mkZscore, if_neg hdt]
  · rw [mkWinsorize, if_neg hdt]
  · rw [mkQuantiles, if_neg hdt]
  · intro hm
    rw [mkRank, if_pos hm]
  · intro hm
    rw [mkRank, if_neg hm]

/-- C3 (counterexample): the claim asserts that for each of demean, zscore
and winsorize the result is window-safe iff the input was declared
window-safe, but `test_zscore_is_window_safe` asserts that the zscore of a
plain (non-window-safe) Factor is window-safe: zscore does not propagate
the flag. -/
theorem claim3_counterexample :
    mkZscore ⟨Dtype.float64, false⟩ = Except.ok ⟨⟨Dtype.float64, false⟩, true⟩ ∧
      (⟨Dtype.float64, false⟩ : FactorSpec).windowSafe = false := by
  constructor
  · rfl
  · rfl

/-- C3 (amended): demean and winsorize propagate the `window_safe` flag —
their result is window-safe iff the input factor was declared window-safe —
while zscore's result is always window-safe, regardless of the input's
flag. -/
theorem claim3_window_safety_propagation (f : FactorSpec) (lo hi : ℚ)
    (hdt : f.dtype = Dtype.float64) (hbounds : 0 ≤ lo ∧ lo < hi ∧ hi ≤ 1) :
    mkDemean f = Except.ok ⟨f, f.windowSafe⟩ ∧
    mkWinsorize f lo hi = Except.ok ⟨f, f.windowSafe⟩ ∧
    mkZscore f = Except.ok ⟨f, true⟩ := by
  refine ⟨?_, ?_, ?_⟩
  · rw [mkDemean, if_pos hdt]
  · rw [mkWinsorize, if_pos hdt, if_pos hbounds]
  · rw [mkZscore, if_pos hdt]

/-- C8: `quartiles(mask)`, `quintiles(mask)` and `deciles(mask)` are
identity-equal to `quantiles(bins=4/5/10, mask)` respectively — term
identity being structural-key equality under the engine's interning — so
repeated calls with identical arguments yield the same term, while calls
that differ in mask yield distinct terms. -/
theorem claim8_quantile_helper_identity (f : QTerm) (mask m1 m2 : Option QTerm)
    (bins : Nat) :
    quartiles f mask = QTerm.quantilesTerm f 4 mask ∧
    quintiles f mask = QTerm.quantilesTerm f 5 mask ∧
    deciles f mask = QTerm.quantilesTerm f 10 mask ∧
    (m1 ≠ m2 → QTerm.quantilesTerm f bins m1 ≠ QTerm.quantilesTerm f bins m2) := by
  refine ⟨rfl, rfl, rfl, ?_⟩
  intro hne hcontra
  injection hcontra with h1 h2 h3
  exact hne h3

/-- C6: attaching a pipeline after the run's initial setup phase raises the
attach-after-initialize error; calling output during that phase raises the
output-during-initialize error; output with an unregistered name raises the
no-such-pipeline error; attaching a second pipeline under a registered name
raises the duplicate-pipeline-name error; and in every such case the
scheduler state returned by the failed call is exactly the input state. -/
theorem claim6_lifecycle_errors (s : SchedState) (name name2 : String) (pid : Nat) :
    (s.initDone = true →
      attachPipelineOp s name pid = (s, some LifecycleError.attachAfterInit)) ∧
    (s.initDone = false → s.pipelines.any (fun p => decide (p.1 = name)) = true →
      attachPipelineOp s name pid = (s, some LifecycleError.duplicatePipelineName)) ∧
    (s.initDone = false →
      pipelineOutputOp s name2 = ((s, none), some LifecycleError.outputDuringInit)) ∧
    (s.initDone = true → s.pipelines.find? (fun p => decide (p.1 = name2)) = none →
      pipelineOutputOp s name2 = ((s, none), some LifecycleError.noSuchPipeline)) := by
  refine ⟨?_, ?_, ?_, ?_⟩
  · intro hinit
    rw [attachPipelineOp, if_pos hinit]
  · intro hinit hdup
    rw [attachPipelineOp, if_neg (by rw [hinit]; exact Bool.false_ne_true), if_pos hdup]
  · intro hinit
    rw [pipelineOutputOp, if_neg (by rw [hinit]; exact Bool.false_ne_true)]
  · intro hinit hfind
    rw [pipelineOutputOp, if_pos hinit, hfind]

/-- C1: for every pipeline, every starting session with enough buffered
history, and every pair of day-chunkings covering the same number of
sessions, the chunked runs produce identical per-day output tables, both
equal to the direct per-day evaluation of the pipeline's terms: the
`chunks` argument never affects output values. -/
theorem claim1_chunk_size_invariance (data : Nat → Nat → ℚ) (p : List PipeTerm)
    (start : Nat) (cs cs' : List Nat) (hstart : maxWL p - 1 ≤ start)
    (hsum : cs.sum = cs'.sum) :
    chunkedRun data p start cs = chunkedRun data p start cs' ∧
    chunkedRun data p start cs
      = (List.range cs.sum).map (fun k => p.map (fun t => evalAbs data t (start + k))) := by
  have h1 := chunkedRun_eq data p start cs hstart
  have h2 := chunkedRun_eq data p start cs' hstart
  rw [← hsum] at h2
  exact ⟨h1.trans h2.symm, h1⟩

/-- C5: with a split of ratio `ratio` effective at session `r`, the length-1
lookback window whose output is served before the split (session `r - 1`)
shows the pre-split, unadjusted close; every window served on or after the
split session is computed from the adjusted columns, in which every row
before `r` is the raw close divided by the ratio and every row at or after
`r` is the as-traded close; in particular the length-1 window served on the
split session shows the previous close divided by the ratio, and the one
served the day after shows the as-traded split-day close. -/
theorem claim5_point_in_time_adjustment (close vol : Nat → ℚ) (r : Nat) (ratio : ℚ)
    (L t : Nat) (hr : 2 ≤ r) (hv : ∀ j, vol j ≠ 0) (hratio : ratio ≠ 0) :
    expectedVwapOut close vol r ratio 1 (r - 1) = close (r - 2) ∧
    (r ≤ t → expectedVwapOut close vol r ratio L t
      = rollingVwapAt (adjCloseF r ratio close) (adjVolF r ratio vol) L (t - 1)) ∧
    expectedVwapOut close vol r ratio 1 r = close (r - 1) / ratio ∧
    expectedVwapOut close vol r ratio 1 (r + 1) = close r ∧
    (∀ j, j < r → adjCloseF r ratio close j = close j / ratio) ∧
    (∀ j, r ≤ j → adjCloseF r ratio close j = close j) := by
  refine ⟨?_, ?_, ?_, ?_, ?_, ?_⟩
  · rw [expectedVwapOut, if_pos (by omega : r - 1 < r)]
    rw [show r - 1 - 1 = r - 2 by omega]
    exact rollingVwapAt_one close vol (r - 2) (hv (r - 2))
  · intro ht
    rw [expectedVwapOut, if_neg (by omega : ¬ t < r)]
  · rw [expectedVwapOut, if_neg (by omega : ¬ r < r)]
    have hvol : adjVolF r ratio vol (r - 1) ≠ 0 := by
      rw [adjVolF, if_pos (by omega : r - 1 < r)]
      exact mul_ne_zero (hv (r - 1)) hratio
    rw [rollingVwapAt_one _ _ (r - 1) hvol]
    rw [adjCloseF, if_pos (by omega : r - 1 < r)]
  · rw [expectedVwapOut, if_neg (by omega : ¬ r + 1 < r)]
    rw [show r + 1 - 1 = r by omega]
    have hvol : adjVolF r ratio vol r ≠ 0 := by
      rw [adjVolF, if_neg (by omega : ¬ r < r)]
      exact hv r
    rw [rollingVwapAt_one _ _ r hvol]
    rw [adjCloseF, if_neg (by omega : ¬ r < r)]
  · intro j hj
    rw [adjCloseF, if_pos hj]
  · intro j hj
    rw [adjCloseF, if_neg (by omega : ¬ j < r)]


/-- Witness for C7 at a concrete row: column 1 is missing (so demean
outputs the missing sentinel there), and changing the value of the
mask-excluded column 2 leaves the demeaned row unchanged. -/
theorem claim7_witness :
    (demeanRow [some 1, none, some 3] [true, true, false]
        ([some 0, some 0, some 0] : List (Option ℤ))).getD 1 none = none ∧
    demeanRow [some 1, none, some 3] [true, true, false]
        ([some 0, some 0, some 0] : List (Option ℤ))
      = demeanRow [some 1, none, some 99] [true, true, false]
        ([some 0, some 0, some 0] : List (Option ℤ)) := by
  have h := claim7_masked_cells_missing_and_inert
    [some 1, none, some 3] [some 1, none, some 99] [true, true, false]
    ([some 0, some 0, some 0] : List (Option ℤ)) listMean (1/4) (3/4) 4
    RankMethod.ordinal true 1
  exact ⟨(h.1 (by with_unfolding_all decide)).1,
    (h.2.2 (by with_unfolding_all decide) (by with_unfolding_all decide)).1⟩

/-- Witness for C4 on row 3 of the hand-computed demean example of
`test_normalizations_hand_computed` (grouped and masked): the cell formula
holds at column 0. -/
theorem claim4_witness :
    0 < ([some (5/2), some (7/2), some 1, some 2] : List (Option ℚ)).length ∧
    (demeanRow [some (5/2), some (7/2), some 1, some 2] [true, true, true, false]
        ([some 1, some 1, some 2, some 2] : List (Option ℤ))).getD 0 none
      = (if inclB [some (5/2), some (7/2), some 1, some 2] [true, true, true, false]
            ([some 1, some 1, some 2, some 2] : List (Option ℤ)) 0 then
          some (cellVal [some (5/2), some (7/2), some 1, some 2] 0
            - listMean (groupValues [some (5/2), some (7/2), some 1, some 2]
                [true, true, true, false]
                ([some 1, some 1, some 2, some 2] : List (Option ℤ)) 0))
        else none) :=
  ⟨by with_unfolding_all decide,
   (claim4_demean_zscore_summary_identity listMean
      [some (5/2), some (7/2), some 1, some 2] [true, true, true, false]
      ([some 1, some 1, some 2, some 2] : List (Option ℤ)) 0
      (by with_unfolding_all decide)).1⟩

/-- Witness for C10 on the grouped-rank row of
`test_grouped_rank_ascending`: an int64 classifier and a string classifier
inducing the same partition produce the same grouped ordinal ranks. -/
theorem claim10_witness :
    (∀ j, j < ([some 0, some 1, some 2, some 3, some 0] : List (Option ℚ)).length →
      ((([some 0, some 1, some 0, some 1, some 0] : List (Option ℤ)).getD j none).isSome
        = ((([some "0", some "1", some "0", some "1", some "0"] :
            List (Option String)).getD j none)).isSome)) ∧
    rankRow RankMethod.ordinal true [some 0, some 1, some 2, some 3, some 0]
        [true, true, true, true, true]
        ([some 0, some 1, some 0, some 1, some 0] : List (Option ℤ))
      = rankRow RankMethod.ordinal true [some 0, some 1, some 2, some 3, some 0]
        [true, true, true, true, true]
        ([some "0", some "1", some "0", some "1", some "0"] : List (Option String)) :=
  ⟨by with_unfolding_all decide,
   (claim10_classifier_dtype_noninterference
      [some 0, some 1, some 2, some 3, some 0] [true, true, true, true, true]
      ([some 0, some 1, some 0, some 1, some 0] : List (Option ℤ))
      ([some "0", some "1", some "0", some "1", some "0"] : List (Option String))
      listMean (1/4) (3/4) RankMethod.ordinal true
      (by with_unfolding_all decide) (by with_unfolding_all decide)).1⟩

/-- Witness for C2 at a concrete datetime64ns Factor: the four
normalizations fail with the type error while rank succeeds. -/
theorem claim2_witness :
    (⟨Dtype.datetime64ns, false⟩ : FactorSpec).dtype ≠ Dtype.float64 ∧
    mkDemean ⟨Dtype.datetime64ns, false⟩ = Except.error GraphError.typeError ∧
    mkQuantiles ⟨Dtype.datetime64ns, false⟩ 4 = Except.error GraphError.typeError ∧
    mkRank ⟨Dtype.datetime64ns, false⟩ "ordinal"
      = Except.ok ⟨⟨Dtype.datetime64ns, false⟩, false⟩ := by
  have h := claim2_float_only_operations ⟨Dtype.datetime64ns, false⟩ 0 1 4 "ordinal"
    (by decide)
  exact ⟨by decide, h.1, h.2.2.2.1, h.2.2.2.2.1 (by decide)⟩

/-- Witness for C3 at a concrete window-safe float64 Factor with valid
winsorize bounds. -/
theorem claim3_witness :
    (⟨Dtype.float64, true⟩ : FactorSpec).dtype = Dtype.float64 ∧
    mkDemean ⟨Dtype.float64, true⟩ = Except.ok ⟨⟨Dtype.float64, true⟩, true⟩ ∧
    mkWinsorize ⟨Dtype.float64, true⟩ (1/20) (19/20)
      = Except.ok ⟨⟨Dtype.float64, true⟩, true⟩ ∧
    mkZscore ⟨Dtype.float64, true⟩ = Except.ok ⟨⟨Dtype.float64, true⟩, true⟩ := by
  have h := claim3_window_safety_propagation ⟨Dtype.float64, true⟩ (1/20) (19/20)
    (by decide) (by norm_num)
  exact ⟨by decide, h.1, h.2.1, h.2.2⟩

/-- Witness for C8: the quartiles of a factor under a mask differ, as
terms, from its unmasked quartiles. -/
theorem claim8_witness :
    (none : Option QTerm) ≠ some (QTerm.baseFilter 1) ∧
    QTerm.quantilesTerm (QTerm.baseFactor 0) 4 none
      ≠ QTerm.quantilesTerm (QTerm.baseFactor 0) 4 (some (QTerm.baseFilter 1)) :=
  ⟨by simp,
   (claim8_quantile_helper_identity (QTerm.baseFactor 0) none none
      (some (QTerm.baseFilter 1)) 4).2.2.2 (by simp)⟩

/-- Witness for C6 at concrete scheduler states: each of the four lifecycle
errors fires with the state unchanged. -/
theorem claim6_witness :
    attachPipelineOp ⟨true, [("test", 0)]⟩ "late" 1
      = (⟨true, [("test", 0)]⟩, some LifecycleError.attachAfterInit) ∧
    attachPipelineOp ⟨false, [("test", 0)]⟩ "test" 1
      = (⟨false, [("test", 0)]⟩, some LifecycleError.duplicatePipelineName) ∧
    pipelineOutputOp ⟨false, [("test", 0)]⟩ "test"
      = ((⟨false, [("test", 0)]⟩, none), some LifecycleError.outputDuringInit) ∧
    pipelineOutputOp ⟨true, [("test", 0)]⟩ "not_test"
      = ((⟨true, [("test", 0)]⟩, none), some LifecycleError.noSuchPipeline) := by
  have h1 := claim6_lifecycle_errors ⟨true, [("test", 0)]⟩ "late" "not_test" 1
  have h2 := claim6_lifecycle_errors ⟨false, [("test", 0)]⟩ "test" "test" 1
  exact ⟨h1.1 rfl, h2.2.1 rfl (by with_unfolding_all decide),
    h2.2.2.1 rfl, h1.2.2.2 rfl (by with_unfolding_all decide)⟩

/-- Witness for C1: a two-term pipeline evaluated over three sessions in
chunks of [1, 2] and of [3] produces identical outputs. -/
theorem claim1_witness :
    maxWL [PipeTerm.latestCol 0, PipeTerm.smaTerm 0 2] - 1 ≤ 1 ∧
    ([1, 2] : List Nat).sum = ([3] : List Nat).sum ∧
    chunkedRun (fun d c => (d : ℚ) + (c : ℚ)) [PipeTerm.latestCol 0, PipeTerm.smaTerm 0 2]
        1 [1, 2]
      = chunkedRun (fun d c => (d : ℚ) + (c : ℚ))
        [PipeTerm.latestCol 0, PipeTerm.smaTerm 0 2] 1 [3] :=
  ⟨by with_unfolding_all decide, by decide,
   (claim1_chunk_size_invariance (fun d c => (d : ℚ) + (c : ℚ))
      [PipeTerm.latestCol 0, PipeTerm.smaTerm 0 2] 1 [1, 2] [3]
      (by with_unfolding_all decide) (by decide)).1⟩

/-- Witness for C5 with a split of ratio 7 at session 3 over concrete
columns: the output served on session 2 is the raw close of session 1, the
output on the split session 3 is the close of session 2 divided by 7, and
the output on session 4 is the as-traded close of session 3. -/
theorem claim5_witness :
    (2 ≤ 3) ∧ ((7 : ℚ) ≠ 0) ∧
    expectedVwapOut (fun j => (j : ℚ) + 1) (fun _ => 1) 3 7 1 2 = ((1 : ℕ) : ℚ) + 1 ∧
    expectedVwapOut (fun j => (j : ℚ) + 1) (fun _ => 1) 3 7 1 3 = (((2 : ℕ) : ℚ) + 1) / 7 ∧
    expectedVwapOut (fun j => (j : ℚ) + 1) (fun _ => 1) 3 7 1 4 = ((3 : ℕ) : ℚ) + 1 := by
  have h := claim5_point_in_time_adjustment (fun j => (j : ℚ) + 1) (fun _ => 1) 3 7 2 4
    (by decide) (fun _ => one_ne_zero) (by norm_num)
  exact ⟨by decide, by norm_num, h.1, h.2.2.1, h.2.2.2.1⟩

end ZiplineSpec
